import Mathlib

/-
Shallow embedding of src/src/process-wrapper.ts (class ProcessWrapper) from
the reliable-mcp repository, together with theorems settling the frozen
claims about it.

Modelling conventions:
* The mutable fields of a ProcessWrapper instance (`child`, `terminated`,
  `cleanupHandlers`) become a `WrapperState` record; the process-wide
  listener registry restricted to the handlers registered by this instance
  becomes the `processListeners` field.
* Node's `ChildProcess.killed` flag is modelled per the Node.js
  documentation: it is set to true when `subprocess.kill()` successfully
  SENDS a signal to the child; it does not indicate that the child has
  exited.
* Asynchronous callbacks (the timeout timer of `start`, the 3-second grace
  timer armed by the Unix branch of `terminate`) are modelled as separate
  step functions applied to whatever state holds when the timer fires.
* Fallibility of the underlying kill primitives is modelled by a
  `KillOracle`; a JavaScript exception is an `Except.error` and the
  `try/catch` of `terminate` is the corresponding `match`.
-/

namespace ReliableMCP

/-- POSIX-style signal names used by process-wrapper.ts. -/
inductive Signal
  | SIGTERM
  | SIGKILL
  | SIGINT
  | SIGHUP
  | SIGBREAK
deriving DecidableEq, Repr

/-- The part of a Node `ChildProcess` handle that process-wrapper.ts reads:
the pid (absent when the spawn failed) and the `killed` flag, which Node
sets when a signal was successfully sent via `kill` (it does NOT mean the
process exited). -/
structure ChildProcess where
  pid : Option Nat
  killed : Bool
deriving DecidableEq, Repr

/-- The triggers for which `setupCleanupHandlers` (src lines 106-148)
registers a process-wide listener. -/
inductive Trigger
  | sigint
  | sigterm
  | sighup
  | sigbreak
  | uncaughtException
  | exitHook
deriving DecidableEq, Repr

/-- The mutable state of one ProcessWrapper instance (src lines 20-24),
plus the process-wide listener registry restricted to the listeners this
instance registered. -/
structure WrapperState where
  child : Option ChildProcess
  terminated : Bool
  cleanupHandlers : List Trigger
  processListeners : List Trigger
deriving DecidableEq, Repr

/-- The state of a freshly constructed wrapper (src lines 20-31). -/
def initialState : WrapperState :=
  { child := none, terminated := false, cleanupHandlers := [], processListeners := [] }

/-- A kill primitive invocation performed by the wrapper. -/
inductive KillAction
  | treeKill (pid : Nat) (sig : Signal)
  | childKill (sig : Signal)
deriving DecidableEq, Repr

/-- Possible behaviours of one `subprocess.kill` call: the signal is
delivered (Node then sets `killed := true`), the send fails without
throwing, or the call throws. -/
inductive KillOutcome
  | delivered
  | notDelivered
  | threw (msg : String)
deriving DecidableEq, Repr

/-- Environment oracle fixing how the underlying kill primitives behave
during one `terminate` call. -/
structure KillOracle where
  unixKill : KillOutcome
  treeKillThrows : Bool
deriving DecidableEq, Repr

/-- The body of the `try` block of `ProcessWrapper.terminate`
(src lines 158-182): on Windows, a `treeKill(pid, SIGTERM, cb)` call whose
synchronous part may throw; on Unix, `child.kill(signal)` (which may throw,
and on success sets the `killed` flag) followed by arming the 3-second
grace timer, which is modelled separately as `graceTimerFire`.
An `Except.error` is a JavaScript exception escaping the block. -/
def killSequence (isWindows : Bool) (o : KillOracle) (sig : Signal)
    (c : ChildProcess) (pid : Nat) : Except String (ChildProcess × List KillAction) :=
  if isWindows then
    if o.treeKillThrows then .error "treeKill threw"
    else .ok (c, [.treeKill pid .SIGTERM])
  else
    match o.unixKill with
    | .threw msg => .error msg
    | .delivered => .ok ({ c with killed := true }, [.childKill sig])
    | .notDelivered => .ok (c, [.childKill sig])

/-- Result of one `terminate` call: the updated state, whether this call
claimed the latch and initiated the kill sequence, and the kill actions it
performed synchronously. -/
structure TerminateResult where
  state : WrapperState
  initiated : Bool
  actions : List KillAction
deriving DecidableEq, Repr

/-- `ProcessWrapper.terminate` (src lines 150-186): early return when the
latch is set or there is no child/pid (line 151-153); otherwise set
`terminated := true` (line 155) and run the kill sequence inside
`try/catch` (lines 158-185), the catch only logging. An `Except.error` of
the result would be an exception escaping to `terminate`'s caller. -/
def terminate (isWindows : Bool) (o : KillOracle) (sig : Signal)
    (s : WrapperState) : Except String TerminateResult :=
  if s.terminated then .ok ⟨s, false, []⟩
  else
    match s.child with
    | none => .ok ⟨s, false, []⟩
    | some c =>
      match c.pid with
      | none => .ok ⟨s, false, []⟩
      | some pid =>
        let s1 : WrapperState := { s with terminated := true }
        match killSequence isWindows o sig c pid with
        | .ok (c1, acts) => .ok ⟨{ s1 with child := some c1 }, true, acts⟩
        | .error _ => .ok ⟨s1, true, []⟩

/-- Unwraps a `terminate` call; the error arm is unreachable (see the
theorem for claim C5). -/
def runTerminate (isWindows : Bool) (o : KillOracle) (sig : Signal)
    (s : WrapperState) : TerminateResult :=
  match terminate isWindows o sig s with
  | .ok r => r
  | .error _ => ⟨s, false, []⟩

/-- The triggers registered by `setupCleanupHandlers` (src lines 106-147):
SIGINT, SIGTERM, SIGHUP, plus SIGBREAK on Windows, then the
uncaughtException handler and the process exit hook. -/
def registeredTriggers (isWindows : Bool) : List Trigger :=
  ([.sigint, .sigterm, .sighup] ++ (if isWindows then [.sigbreak] else []))
    ++ [.uncaughtException, .exitHook]

/-- `ProcessWrapper.setupCleanupHandlers` (src lines 106-148): registers a
process-wide listener for each trigger and pushes, for each, a
deregistration closure onto `cleanupHandlers`. -/
def setupCleanupHandlers (isWindows : Bool) (s : WrapperState) : WrapperState :=
  { s with
    processListeners := s.processListeners ++ registeredTriggers isWindows,
    cleanupHandlers := s.cleanupHandlers ++ registeredTriggers isWindows }

/-- Error thrown by `start` when a child handle is already held
(src lines 47-49, message "Process already started"). -/
inductive StartError
  | alreadyStarted
deriving DecidableEq, Repr

/-- The `ChildProcess` handle returned by `spawn` (src lines 54-61);
`pid` is `none` when the OS could not create the process. -/
def spawnChild (pid : Option Nat) : ChildProcess :=
  { pid := pid, killed := false }

/-- The synchronous part of `ProcessWrapper.start` (src lines 46-78): if a
child handle is held, throw `alreadyStarted` leaving the state untouched;
otherwise spawn the child and register the cleanup handlers. The
suspension until the exit event is modelled by `exitEvent` below. -/
def startStep (isWindows : Bool) (pid : Option Nat) (s : WrapperState) :
    Except StartError Unit × WrapperState :=
  if s.child.isSome then (.error .alreadyStarted, s)
  else (.ok (), setupCleanupHandlers isWindows { s with child := some (spawnChild pid) })

/-- `ProcessWrapper.cleanup` (src lines 188-193): run every queued
deregistration closure (each removes its own listener), clear the queue,
release the child handle, and set the `terminated` latch. -/
def cleanup (s : WrapperState) : WrapperState :=
  { s with
    processListeners := s.cleanupHandlers.foldl (fun ls t => ls.erase t) s.processListeners,
    cleanupHandlers := [],
    child := none,
    terminated := true }

/-- The value the exit promise is resolved with (src line 89:
`resolve(code || 0)`): a null exit code, and the exit code 0, both map
to 0; any other code maps to itself. -/
def resolveExitValue (code : Option Int) : Int :=
  match code with
  | some c => if c = 0 then 0 else c
  | none => 0

/-- The handler of the child's `exit` event (src lines 86-90): run
`cleanup`, then resolve the promise returned by `start` with
`code || 0`. -/
def exitEvent (code : Option Int) (signal : Option Signal) (s : WrapperState) :
    WrapperState × Int :=
  (cleanup s, resolveExitValue code)

/-- The `killed` getter (src lines 199-201):
`terminated || (child?.killed || false)`. -/
def killed (s : WrapperState) : Bool :=
  s.terminated || (match s.child with | some c => c.killed | none => false)

/-- The timeout timer callback armed by `start` (src lines 93-100): if the
latch is unset and a child handle is held, call `terminate()`; otherwise do
nothing. Returns the new state and whether a kill sequence was
initiated. -/
def timeoutFire (isWindows : Bool) (o : KillOracle) (s : WrapperState) :
    WrapperState × Bool :=
  if !s.terminated && s.child.isSome then
    let r := runTerminate isWindows o .SIGTERM s
    (r.state, r.initiated)
  else (s, false)

/-- The 3-second grace timer callback armed by the Unix branch of
`terminate` (src lines 177-181): `if (this.child && !this.child.killed)`
then send SIGKILL (which, on success, sets the `killed` flag). -/
def graceTimerFire (s : WrapperState) : WrapperState × List KillAction :=
  match s.child with
  | none => (s, [])
  | some c =>
    if c.killed then (s, [])
    else ({ s with child := some { c with killed := true } }, [.childKill .SIGKILL])

/-- A sequence of `terminate` calls, each with its own oracle and signal
argument; returns the final state and how many of the calls initiated a
kill sequence. -/
def terminateCalls (isWindows : Bool) :
    List (KillOracle × Signal) → WrapperState → WrapperState × Nat
  | [], s => (s, 0)
  | c :: rest, s =>
    let r := runTerminate isWindows c.1 c.2 s
    let p := terminateCalls isWindows rest r.state
    (p.1, (if r.initiated then 1 else 0) + p.2)

/-- Whether delivering trigger `t` to the supervising process would invoke
this instance's handler (and hence its `terminate`): true exactly when the
instance still has a listener registered for `t`. -/
def signalInvokesTerminate (t : Trigger) (s : WrapperState) : Bool :=
  s.processListeners.contains t

/-- The wrapper holds a live child: latch unset, child handle present with
a pid — exactly the states in which `terminate`'s guard (src line 151)
falls through. -/
def isRunning (s : WrapperState) : Bool :=
  !s.terminated && (match s.child with | some c => c.pid.isSome | none => false)

/-- Events a Node `ChildProcess` can emit that process-wrapper.ts listens
to: the `error` event (src lines 63-65, handler only logs) and the `exit`
event (src lines 86-90). -/
inductive ChildEvent
  | errorEvt (msg : String)
  | exitEvt (code : Option Int) (signal : Option Signal)
deriving DecidableEq, Repr

/-- The value, if any, with which one event resolves the promise returned
by `start`: only the `exit` event resolves it (src lines 80-101); the
`error` handler only logs. -/
def eventResolution : ChildEvent → Option Int
  | .errorEvt _ => none
  | .exitEvt code _ => some (resolveExitValue code)

/-- The value `start` resolves to over a trace of child events, or `none`
when no event in the trace resolves the promise (i.e. `start` hangs). -/
def startResolution : List ChildEvent → Option Int
  | [] => none
  | e :: rest =>
    match eventResolution e with
    | some v => some v
    | none => startResolution rest

/-- The event trace a Node `ChildProcess` produces when the OS cannot spawn
the executable (e.g. ENOENT): per the Node.js child_process documentation,
the `error` event is emitted and the `exit` event does not fire for a
process that could not be spawned. -/
def spawnFailureTrace : List ChildEvent :=
  [.errorEvt "spawn this-command-does-not-exist-12345 ENOENT"]

/-- A concrete running state: live child with pid 42, latch unset. -/
def runningState0 : WrapperState :=
  { child := some { pid := some 42, killed := false },
    terminated := false, cleanupHandlers := [], processListeners := [] }

/-- A concrete kill oracle where the Unix kill delivers its signal. -/
def oracle0 : KillOracle :=
  { unixKill := .delivered, treeKillThrows := false }

/-- The state after a started wrapper (Unix, pid 42) observed its child's
exit event with code 0. -/
def postExitState0 : WrapperState :=
  (exitEvent (some 0) none (startStep false (some 42) initialState).2).1

/-- Helper: a `terminate` call on a state whose latch is already set
returns immediately, leaving the state unchanged and initiating nothing. -/
theorem runTerminate_of_terminated (w : Bool) (o : KillOracle) (sig : Signal)
    (s : WrapperState) (h : s.terminated = true) :
    runTerminate w o sig s = ⟨s, false, []⟩ := by
  simp [runTerminate, terminate, h]

/-- Helper: a `terminate` call on a running state claims the latch and
initiates the kill sequence, whatever the oracle does. -/
theorem runTerminate_running (w : Bool) (o : KillOracle) (sig : Signal)
    (s : WrapperState) (h : isRunning s = true) :
    (runTerminate w o sig s).initiated = true ∧
    (runTerminate w o sig s).state.terminated = true := by
  rcases s with ⟨child, term, ch, pl⟩
  rcases child with _ | c
  · simp [isRunning] at h
  rcases c with ⟨pid, ck⟩
  rcases pid with _ | p
  · simp [isRunning] at h
  have hterm : term = false := by
    simp [isRunning] at h
    exact h
  subst hterm
  simp only [runTerminate, terminate]
  rcases hk : killSequence w o sig ⟨some p, ck⟩ p with msg | ⟨c1, acts⟩ <;>
    simp [hk]

/-- Helper: once the latch is set, any further sequence of `terminate`
calls initiates no kill and leaves the state unchanged. -/
theorem terminateCalls_of_terminated (w : Bool) (calls : List (KillOracle × Signal))
    (s : WrapperState) (h : s.terminated = true) :
    terminateCalls w calls s = (s, 0) := by
  induction calls with
  | nil => rfl
  | cons c rest ih =>
    simp [terminateCalls, runTerminate_of_terminated w c.1 c.2 s h, ih]

/-- Claim C1: in any sequence of `terminate` invocations on a wrapper
holding a live child (the situation of the signal handlers, the timeout
timer, the exit hook, and direct calls), the first invocation claims the
latch and initiates the kill sequence, and the whole sequence initiates
exactly one kill: every later invocation sees the latch set and is a
no-op. -/
theorem terminate_first_call_only_kill (w : Bool) (o : KillOracle) (sig : Signal)
    (rest : List (KillOracle × Signal)) (s : WrapperState) (h : isRunning s = true) :
    (runTerminate w o sig s).initiated = true ∧
    (terminateCalls w ((o, sig) :: rest) s).2 = 1 := by
  obtain ⟨h1, h2⟩ := runTerminate_running w o sig s h
  refine ⟨h1, ?_⟩
  simp [terminateCalls, h1, terminateCalls_of_terminated w rest _ h2]

/-- Witness for C1: three `terminate` calls on a concrete running state
(Unix, pid 42) initiate exactly one kill, and it is the first call. -/
theorem terminate_first_call_only_kill_witness :
    (runTerminate false oracle0 .SIGTERM runningState0).initiated = true ∧
    (terminateCalls false
      [(oracle0, .SIGTERM), (oracle0, .SIGTERM), (⟨.notDelivered, false⟩, .SIGKILL)]
      runningState0).2 = 1 :=
  terminate_first_call_only_kill false oracle0 .SIGTERM
    [(oracle0, .SIGTERM), (⟨.notDelivered, false⟩, .SIGKILL)] runningState0 (by decide)

/-- Claim C2: when the child exits normally with code C, the exit handler
resolves `start` with exactly C (the identity holds for every integer
code, in particular 0 and 3). -/
theorem start_resolves_child_exit_code (c : Int) (sig : Option Signal)
    (s : WrapperState) : (exitEvent (some c) sig s).2 = c := by
  simp only [exitEvent, resolveExitValue]
  by_cases h : c = 0 <;> simp [h]

/-- Counterexample to claim C3 as stated: a child killed by a signal
(exit event with null code, non-null signal) resolves `start` with 0 —
not a non-zero sentinel — at a concrete state. -/
theorem signal_exit_zero_counterexample :
    (exitEvent none (some .SIGKILL) runningState0).2 = 0 := by decide

/-- Claim C3 amended: a child that terminates due to a signal (null exit
code) always resolves `start` with 0, because `code || 0` maps the null
code to 0; this value is NOT distinguishable from a successful normal
exit. -/
theorem signal_exit_resolves_zero (sig : Signal) (s : WrapperState) :
    (exitEvent none (some sig) s).2 = 0 := rfl

/-- Counterexample to claim C4 as stated: after the first child has exited
(cleanup released the handle), a second `start` does not fail with
AlreadyStarted — it succeeds and spawns a new child. -/
theorem second_start_after_exit_counterexample :
    (startStep false (some 43) postExitState0).1 = .ok () ∧
    (startStep false (some 43) postExitState0).2.child = some (spawnChild (some 43)) :=
  ⟨rfl, rfl⟩

/-- Claim C4 amended: while the wrapper still holds a child handle (i.e.
before the exit-path cleanup releases it), a second invocation of `start`
fails with the AlreadyStarted error and has no side effects — the state is
returned unchanged; after the child has exited and cleanup has set the
handle to null, a subsequent `start` proceeds to spawn a new child. -/
theorem second_start_before_exit_fails (w : Bool) (pid : Option Nat)
    (s : WrapperState) (h : s.child.isSome = true) :
    startStep w pid s = (.error .alreadyStarted, s) := by
  simp [startStep, h]

/-- Witness for the amended C4: a second `start` issued right after the
first one, before any exit event, fails with AlreadyStarted and leaves the
state unchanged. -/
theorem second_start_before_exit_fails_witness :
    startStep false (some 43) (startStep false (some 42) initialState).2 =
      (.error .alreadyStarted, (startStep false (some 42) initialState).2) :=
  second_start_before_exit_fails false (some 43)
    (startStep false (some 42) initialState).2 (by rfl)

/-- Claim C5: `terminate` never raises to its caller: for every state,
signal argument and behaviour of the underlying kill primitives —
including a throwing `child.kill` and a throwing `treeKill` — the call
returns normally; the failure is caught and only logged. -/
theorem terminate_never_raises (w : Bool) (o : KillOracle) (sig : Signal)
    (s : WrapperState) : (terminate w o sig s).isOk = true := by
  unfold terminate
  split
  · rfl
  · split
    · rfl
    · split
      · rfl
      · split <;> rfl

/-- Claim C6: the timeout timer is a no-op once the child has exited —
firing it on any post-exit-event state changes nothing and initiates no
kill — and, conversely, a firing timer initiates a kill only in states
where the latch is unset and the child handle is still held (the child has
not exited). -/
theorem timeout_timer_guard (w : Bool) (o : KillOracle) (code : Option Int)
    (sg : Option Signal) (s : WrapperState) :
    timeoutFire w o (exitEvent code sg s).1 = ((exitEvent code sg s).1, false) ∧
    ∀ s2, (timeoutFire w o s2).2 = true →
      s2.terminated = false ∧ s2.child.isSome = true := by
  constructor
  · simp [timeoutFire, exitEvent, cleanup]
  · intro s2 h
    by_cases hg : (!s2.terminated && s2.child.isSome) = true
    · simp only [Bool.and_eq_true, Bool.not_eq_true'] at hg
      exact hg
    · rw [timeoutFire, if_neg hg] at h
      simp at h

/-- Witness for C6: on the concrete post-exit state the timer is a no-op,
and on the concrete running state (where the timer does initiate a kill)
the latch is indeed unset and the child handle held. -/
theorem timeout_timer_guard_witness :
    (timeoutFire false oracle0 (exitEvent (some 0) none runningState0).1 =
      ((exitEvent (some 0) none runningState0).1, false)) ∧
    (runningState0.terminated = false ∧ runningState0.child.isSome = true) :=
  ⟨(timeout_timer_guard false oracle0 (some 0) none runningState0).1,
   (timeout_timer_guard false oracle0 (some 0) none runningState0).2
     runningState0 (by decide)⟩

/-- Claim C7: after the exit event of a started wrapper, every listener the
instance registered (the three Unix signals, SIGBREAK on Windows, the
uncaughtException handler and the exit hook) has been removed from the
process-wide registry, the deregistration queue is empty, a subsequent
external signal no longer invokes this instance's `terminate`, and running
the cleanup again deregisters nothing further (deregistration happened
exactly once). -/
theorem handlers_deregistered_after_exit (w : Bool) (pid : Option Nat)
    (code : Option Int) (sg : Option Signal) :
    ((exitEvent code sg (startStep w pid initialState).2).1).processListeners = [] ∧
    ((exitEvent code sg (startStep w pid initialState).2).1).cleanupHandlers = [] ∧
    (∀ t, signalInvokesTerminate t
      ((exitEvent code sg (startStep w pid initialState).2).1) = false) ∧
    cleanup ((exitEvent code sg (startStep w pid initialState).2).1) =
      (exitEvent code sg (startStep w pid initialState).2).1 := by
  cases w <;> exact ⟨rfl, rfl, fun t => rfl, rfl⟩

/-- Claim C8 (code evaluation at the failing input): Unix path, live child
pid 42; `terminate` successfully delivers SIGTERM, so Node sets the
child's `killed` flag even though the process has not exited. When the
3-second grace timer fires, the child handle is still present (the child
never exited), yet the guard `!child.killed` is false and NO SIGKILL is
issued — the forced phase the claim requires never happens. -/
theorem grace_timer_skips_sigkill :
    (runTerminate false oracle0 .SIGTERM runningState0).state.child ≠ none ∧
    graceTimerFire (runTerminate false oracle0 .SIGTERM runningState0).state =
      ((runTerminate false oracle0 .SIGTERM runningState0).state, []) := by
  decide

/-- Claim C9 (code evaluation at the failing input): when the OS cannot
spawn the executable, the child emits only the `error` event, whose
handler merely logs; no event in the trace resolves the exit promise, so
`start` never resolves (it hangs) instead of resolving to a non-zero
outcome. Moreover, even if an `exit` event fired after the failure, its
code would be null and `start` would resolve to 0 — also not non-zero. -/
theorem spawn_failure_start_never_resolves :
    startResolution spawnFailureTrace = none ∧
    ∀ sg, startResolution [ChildEvent.exitEvt none sg] = some 0 :=
  ⟨rfl, fun sg => rfl⟩

/-- Claim C10: after any exit event — in particular one where the child
exited on its own and `terminate` was never invoked — the `killed` getter
returns true, because the exit-path cleanup unconditionally sets the
`terminated` latch; `killed` therefore reports that the lifecycle
finished, not that a kill was performed. -/
theorem killed_true_after_exit (code : Option Int) (sg : Option Signal)
    (s : WrapperState) : killed ((exitEvent code sg s).1) = true := rfl

end ReliableMCP
